import Mathlib

/-!
# Verification of the mem0-mcp tool dispatcher (src/index.ts)

Shallow embedding of the single-file MCP server in src/index.ts: mode
selection at startup (Mem0MCPServer.constructor), the tool dispatcher
(the CallToolRequestSchema handler) and the three tool handlers
handleAddMemory, handleSearchMemory, handleDeleteMemory.

Conventions of the embedding:
- JavaScript optional string values (possibly undefined / null) are
  Option String; JS string truthiness (undefined, null and "" are falsy)
  is the function truthy / jsFalsy below.
- JSON object arguments (metadata, filters) are carried as opaque
  strings; a JSON object value is always truthy in JS, so presence
  (Option.isSome) models the truthiness tests the code applies to them.
- The external SDK clients (cloud MemoryClient, local Memory) and fetch
  are out of scope per the spec; their eventual results are oracle
  inputs (Oracles), and every request the handlers hand to them is
  recorded in the result as a BackendReq value.
- The numeric threshold is embedded as a rational number: the code does
  no arithmetic on it, it only tests for undefined / null and passes the
  JSON number through, so ℚ represents the JSON literal faithfully.
-/

namespace Mem0MCP

/-- JavaScript truthiness filter for an optional string: undefined (none)
and the empty string are falsy; a truthy string passes through. -/
def truthy : Option String → Option String
  | some s => if s.isEmpty then none else some s
  | none => none

/-- True when a JS conditional on this optional string takes the falsy
branch (value missing or empty string). -/
def jsFalsy (a : Option String) : Bool :=
  (truthy a).isNone

/-- JavaScript a || b on optional strings: a when truthy, otherwise b. -/
def jsOrStr (a b : Option String) : Option String :=
  match truthy a with
  | some s => some s
  | none => b

/-- JavaScript template interpolation of a possibly-undefined string:
undefined prints as the literal text undefined. -/
def jsTemplateOpt : Option String → String
  | some s => s
  | none => "undefined"

/-- Process environment variables read by src/index.ts (the ones the
dispatcher and handlers consult). Absent variable = none. -/
structure Env where
  MEM0_API_KEY : Option String := none
  OPENAI_API_KEY : Option String := none
  YOUR_ORG_ID : Option String := none
  ORG_ID : Option String := none
  YOUR_PROJECT_ID : Option String := none
  PROJECT_ID : Option String := none
  VECTOR_DB_PROVIDER : Option String := none
  VECTOR_DB_URL : Option String := none
  deriving Repr, DecidableEq

/-- Effective org id: const orgId = process.env.YOUR_ORG_ID || process.env.ORG_ID,
then used under if (orgId). -/
def effOrgId (env : Env) : Option String :=
  truthy (jsOrStr env.YOUR_ORG_ID env.ORG_ID)

/-- Effective project id, same pattern as effOrgId. -/
def effProjectId (env : Env) : Option String :=
  truthy (jsOrStr env.YOUR_PROJECT_ID env.PROJECT_ID)

/-- Mutable fields of class Mem0MCPServer that the dispatcher reads:
isReady, isCloudMode, and presence of cloudClient / localClient. -/
structure ServerState where
  isReady : Bool
  isCloudMode : Bool
  hasCloudClient : Bool
  hasLocalClient : Bool
  deriving Repr, DecidableEq

/-- Message payload built by handleAddMemory:
const messages = [ \x7b role: "user", content \x7d ]. -/
structure Mem0Message where
  role : String
  content : Option String
  deriving Repr, DecidableEq

/-- Options object handed to cloudClient.add (handleAddMemory, cloud
branch). Conditionally-added keys are none when the JS code does not set
them. -/
structure CloudAddOptions where
  user_id : Option String
  version : String
  org_id : Option String
  project_id : Option String
  run_id : Option String
  agent_id : Option String
  metadata : Option String
  deriving Repr, DecidableEq

/-- Options object handed to localClient.add (handleAddMemory, local
branch): exactly the keys userId, sessionId, metadata, set unconditionally
(possibly to undefined). -/
structure LocalAddOptions where
  userId : Option String
  sessionId : Option String
  metadata : Option String
  deriving Repr, DecidableEq

/-- Options object handed to cloudClient.search (handleSearchMemory,
cloud branch). -/
structure CloudSearchOptions where
  user_id : Option String
  version : String
  org_id : Option String
  project_id : Option String
  run_id : Option String
  agent_id : Option String
  filters : Option String
  threshold : ℚ
  deriving Repr, DecidableEq

/-- Options object handed to localClient.search (handleSearchMemory,
local branch): keys userId, sessionId, filters plus the threshold. -/
structure LocalSearchOptions where
  userId : Option String
  sessionId : Option String
  filters : Option String
  threshold : ℚ
  deriving Repr, DecidableEq

/-- Options object built by handleDeleteMemory in cloud mode (snake_case
keys); it is serialized into the body of the fallback fetch request only. -/
structure CloudDeleteOptions where
  memory_id : Option String
  user_id : Option String
  version : String
  org_id : Option String
  project_id : Option String
  agent_id : Option String
  deriving Repr, DecidableEq

/-- Resolved HTTP response of the fallback fetch call; the code never
inspects it, the status is carried only so that theorems can quantify
over it. -/
structure FetchResp where
  status : Nat
  deriving Repr, DecidableEq

/-- One request issued by a handler to the backend SDKs or to fetch,
recorded verbatim with the data the code passes. -/
inductive BackendReq
  | cloudAdd (messages : List Mem0Message) (opts : CloudAddOptions)
  | localAdd (messages : List Mem0Message) (opts : LocalAddOptions)
  | cloudSearch (query : Option String) (opts : CloudSearchOptions)
  | localSearch (query : Option String) (opts : LocalSearchOptions)
  | cloudDeleteMemory (memoryId : Option String)
  | cloudDeleteFetch (url : String) (authHeader : String) (body : CloudDeleteOptions)
  | localDeleteMemory (memoryId : Option String)
  | vectorstoreDelete (ids : List String)
  deriving Repr, DecidableEq

/-- MCP protocol error codes used by the code (McpError codes). -/
inductive ErrCode
  | InvalidParams
  | MethodNotFound
  | InternalError
  deriving Repr, DecidableEq

/-- One element of the success envelope content array. -/
structure ContentItem where
  type : String
  text : String
  deriving Repr, DecidableEq

/-- The outcome a tool call produces on the protocol channel: either the
success envelope or a thrown McpError. -/
inductive ToolOutcome
  | success (content : List ContentItem)
  | error (code : ErrCode) (msg : String)
  deriving Repr, DecidableEq

/-- Error code of an outcome, none on success. -/
def ToolOutcome.errCode : ToolOutcome → Option ErrCode
  | .success _ => none
  | .error c _ => some c

/-- Raw argument bag of a tool call (request.params.arguments || \x7b\x7d):
every known key optional, absent keys none. The tool interfaces
(Mem0AddToolArgs, Mem0SearchToolArgs, Mem0DeleteToolArgs) are casts of
this bag, so the handlers read these fields directly. -/
structure RawArgs where
  content : Option String := none
  query : Option String := none
  userId : Option String := none
  sessionId : Option String := none
  agentId : Option String := none
  memoryId : Option String := none
  metadata : Option String := none
  filters : Option String := none
  threshold : Option ℚ := none
  deriving Repr, DecidableEq

/-- Oracle inputs: the eventual results of the out-of-scope SDK / network
calls a tool call may make (spec section 1 treats the backends as
external collaborators). -/
structure Oracles where
  /-- Eventual result of the fire-and-forget client.add background write. -/
  addWrite : Except String Unit := Except.ok ()
  /-- Result of client.search; on success the payload stands for the
  JSON-serialized result value the SDK returned. -/
  searchResult : Except String String := Except.ok ""
  /-- Result of the primary client.deleteMemory call. -/
  deletePrimary : Except String Unit := Except.ok ()
  /-- Result of the fallback fetch DELETE (cloud mode): a rejection
  message, or a resolved response of any status. -/
  cloudFetch : Except String FetchResp := Except.ok ⟨200⟩
  /-- Whether localClient._vectorstore exists and has a delete function. -/
  vsDeleteAvailable : Bool := true
  /-- Result of the fallback _vectorstore.delete call (local mode). -/
  vsDelete : Except String Unit := Except.ok ()

/-- Result of one dispatched tool call: the protocol outcome, the backend
requests issued during the call (including the spawned background write),
and the diagnostic side-channel lines recorded for the background write. -/
structure HandlerResult where
  outcome : ToolOutcome
  reqs : List BackendReq
  diag : List String
  deriving Repr, DecidableEq

/-- Embedding of handleAddMemory (src/index.ts lines 385-446). The
background write is dispatched and its eventual result o.addWrite only
feeds the diagnostic channel: the catch inside the void async block logs
and swallows it. -/
def handleAddMemory (env : Env) (st : ServerState) (a : RawArgs)
    (o : Oracles) : HandlerResult :=
  if jsFalsy a.content then
    ⟨.error .InvalidParams "Missing required argument: content", [], []⟩
  else if jsFalsy a.userId then
    ⟨.error .InvalidParams "Missing required argument: userId", [], []⟩
  else
    let messages : List Mem0Message := [⟨"user", a.content⟩]
    if st.isCloudMode && st.hasCloudClient then
      let opts : CloudAddOptions :=
        { user_id := a.userId
          version := "v2"
          org_id := effOrgId env
          project_id := effProjectId env
          run_id := truthy a.sessionId
          agent_id := truthy a.agentId
          metadata := a.metadata }
      let diag : List String :=
        match o.addWrite with
        | .ok _ => ["Memory added asynchronously (cloud)"]
        | .error e => ["Async error adding memory (cloud): " ++ e]
      ⟨.success [⟨"text", "Memory addition queued successfully"⟩],
        [.cloudAdd messages opts], diag⟩
    else if st.hasLocalClient then
      let opts : LocalAddOptions := ⟨a.userId, a.sessionId, a.metadata⟩
      let diag : List String :=
        match o.addWrite with
        | .ok _ => ["Memory added asynchronously (local)"]
        | .error e => ["Async error adding memory (local): " ++ e]
      ⟨.success [⟨"text", "Memory addition queued successfully"⟩],
        [.localAdd messages opts], diag⟩
    else
      ⟨.error .InternalError "No memory client is available", [], []⟩

/-- Embedding of handleSearchMemory (src/index.ts lines 451-531). The
search request is issued and awaited; a rejection is wrapped as
InternalError. On success the response text is the JSON serialization of
the results, carried opaquely by the oracle. -/
def handleSearchMemory (env : Env) (st : ServerState) (a : RawArgs)
    (o : Oracles) : HandlerResult :=
  if jsFalsy a.query then
    ⟨.error .InvalidParams "Missing required argument: query", [], []⟩
  else if jsFalsy a.userId then
    ⟨.error .InvalidParams "Missing required argument: userId", [], []⟩
  else if st.isCloudMode && st.hasCloudClient then
    let opts : CloudSearchOptions :=
      { user_id := a.userId
        version := "v2"
        org_id := effOrgId env
        project_id := effProjectId env
        run_id := truthy a.sessionId
        agent_id := truthy a.agentId
        filters := a.filters
        threshold := match a.threshold with | some t => t | none => 0.3 }
    match o.searchResult with
    | .ok s =>
        ⟨.success [⟨"text", s⟩], [.cloudSearch a.query opts], []⟩
    | .error e =>
        ⟨.error .InternalError ("Error searching memories: " ++ e),
          [.cloudSearch a.query opts], []⟩
  else if st.hasLocalClient then
    let opts : LocalSearchOptions :=
      ⟨a.userId, a.sessionId, a.filters,
        match a.threshold with | some t => t | none => 0.3⟩
    match o.searchResult with
    | .ok s =>
        ⟨.success [⟨"text", s⟩], [.localSearch a.query opts], []⟩
    | .error e =>
        ⟨.error .InternalError ("Error searching memories: " ++ e),
          [.localSearch a.query opts], []⟩
  else
    ⟨.error .InternalError "No memory client is available", [], []⟩

/-- Embedding of handleDeleteMemory (src/index.ts lines 536-627). Cloud
mode: primary cloudClient.deleteMemory(memoryId); on throw, one fallback
fetch DELETE whose resolved value is never inspected; a fetch rejection
reaches the outer catch. Local mode: primary localClient.deleteMemory; on
throw, _vectorstore.delete when available, else a thrown Error that the
outer catch wraps. -/
def handleDeleteMemory (env : Env) (st : ServerState) (a : RawArgs)
    (o : Oracles) : HandlerResult :=
  if jsFalsy a.memoryId then
    ⟨.error .InvalidParams "Missing required argument: memoryId", [], []⟩
  else if jsFalsy a.userId then
    ⟨.error .InvalidParams "Missing required argument: userId", [], []⟩
  else
    let mid := a.memoryId.getD ""
    if st.isCloudMode && st.hasCloudClient then
      let opts : CloudDeleteOptions :=
        { memory_id := a.memoryId
          user_id := a.userId
          version := "v2"
          org_id := effOrgId env
          project_id := effProjectId env
          agent_id := truthy a.agentId }
      match o.deletePrimary with
      | .ok _ =>
          ⟨.success [⟨"text", "Memory " ++ mid ++ " deleted successfully"⟩],
            [.cloudDeleteMemory a.memoryId], []⟩
      | .error _ =>
          let url := "https://api.mem0.ai/v2/memories/" ++ mid
          let auth := "Token " ++ jsTemplateOpt env.MEM0_API_KEY
          match o.cloudFetch with
          | .ok _ =>
              ⟨.success [⟨"text", "Memory " ++ mid ++ " deleted successfully"⟩],
                [.cloudDeleteMemory a.memoryId, .cloudDeleteFetch url auth opts], []⟩
          | .error e =>
              ⟨.error .InternalError ("Error deleting memory: " ++ e),
                [.cloudDeleteMemory a.memoryId, .cloudDeleteFetch url auth opts], []⟩
    else if st.hasLocalClient then
      match o.deletePrimary with
      | .ok _ =>
          ⟨.success [⟨"text", "Memory " ++ mid ++ " deleted successfully"⟩],
            [.localDeleteMemory a.memoryId], []⟩
      | .error _ =>
          if o.vsDeleteAvailable then
            match o.vsDelete with
            | .ok _ =>
                ⟨.success [⟨"text", "Memory " ++ mid ++ " deleted successfully"⟩],
                  [.localDeleteMemory a.memoryId, .vectorstoreDelete [mid]], []⟩
            | .error e =>
                ⟨.error .InternalError ("Error deleting memory: " ++
                    (if e.isEmpty then "Local client does not support memory deletion" else e)),
                  [.localDeleteMemory a.memoryId, .vectorstoreDelete [mid]], []⟩
          else
            ⟨.error .InternalError
                "Error deleting memory: Local client does not support memory deletion",
              [.localDeleteMemory a.memoryId], []⟩
    else
      ⟨.error .InternalError "No memory client is available", [], []⟩

/-- Embedding of the CallToolRequestSchema handler (src/index.ts lines
350-379): the readiness gate, then dispatch on the tool name; an unknown
name throws MethodNotFound; McpError values thrown by handlers pass
through the outer catch unchanged. -/
def callTool (env : Env) (st : ServerState) (name : String) (a : RawArgs)
    (o : Oracles) : HandlerResult :=
  if st.isReady = false then
    ⟨.error .InternalError
        "Memory client is still initializing. Please try again in a moment.",
      [], []⟩
  else if name = "add_memory" then handleAddMemory env st a o
  else if name = "search_memory" then handleSearchMemory env st a o
  else if name = "delete_memory" then handleDeleteMemory env st a o
  else ⟨.error .MethodNotFound ("Unknown tool: " ++ name), [], []⟩

/-- Startup mode decision of Mem0MCPServer.constructor: MEM0_API_KEY
truthy selects cloud, else OPENAI_API_KEY truthy selects local, else
console.error and process.exit(1). -/
inductive ModeDecision
  | cloud
  | localMode
  | exitStatus (code : Nat)
  deriving Repr, DecidableEq

/-- Mode selection from the environment (src/index.ts lines 132, 171, 221). -/
def selectMode (env : Env) : ModeDecision :=
  if (truthy env.MEM0_API_KEY).isSome then .cloud
  else if (truthy env.OPENAI_API_KEY).isSome then .localMode
  else .exitStatus 1

/-- The eventual fate of the asynchronous cloud initialization (the
dynamic import chain, lines 137-170): the import promise rejects (outer
catch, exit 1), the MemoryClient constructor throws inside the then
callback (inner catch: logged only), or construction succeeds. -/
inductive CloudInitOutcome
  | importRejected
  | ctorThrew
  | ok
  deriving Repr, DecidableEq

/-- Observable result of startup: the process exited with a code, or it
is running with the given server state. -/
inductive InitResult
  | exited (code : Nat)
  | running (st : ServerState)
  deriving Repr, DecidableEq

/-- True when startup ended in process.exit. -/
def InitResult.isExited : InitResult → Bool
  | .exited _ => true
  | .running _ => false

/-- Embedding of the constructor's initialization (src/index.ts lines
105-224), parameterized by the fate of the out-of-scope client
constructions. Cloud: import rejection exits 1; a constructor throw is
caught and only logged, leaving isReady false with no client; success
sets cloudClient and isReady. Local: qdrant provider without
VECTOR_DB_URL exits 1; a Memory constructor throw exits 1; success sets
localClient and isReady. -/
def startServer (env : Env) (cloudOutcome : CloudInitOutcome)
    (localCtorThrows : Bool) : InitResult :=
  match selectMode env with
  | .cloud =>
      match cloudOutcome with
      | .importRejected => .exited 1
      | .ctorThrew => .running ⟨false, true, false, false⟩
      | .ok => .running ⟨true, true, true, false⟩
  | .localMode =>
      if env.VECTOR_DB_PROVIDER == some "qdrant" && (truthy env.VECTOR_DB_URL).isNone then
        .exited 1
      else if localCtorThrows then
        .exited 1
      else
        .running ⟨true, false, false, true⟩
  | .exitStatus n => .exited n

/-- Ready with the client of the active mode present, which is the only
ready shape startServer can produce. -/
def readyWithClient (st : ServerState) : Bool :=
  st.isReady && (if st.isCloudMode then st.hasCloudClient else st.hasLocalClient)

/-- Threshold carried by a search backend request, none for other
request kinds. -/
def searchReqThreshold : BackendReq → Option ℚ
  | .cloudSearch _ opts => some opts.threshold
  | .localSearch _ opts => some opts.threshold
  | _ => none

/-- True for the documented fallback delete mechanisms: the raw fetch
DELETE (cloud) and the vector-store delete (local). -/
def isFallbackDelete : BackendReq → Bool
  | .cloudDeleteFetch _ _ _ => true
  | .vectorstoreDelete _ => true
  | _ => false

/-- True when a backend request carries the given org and project
scoping identifiers. The primary cloud delete call has no field that
could carry them: cloudClient.deleteMemory receives only the memory id. -/
def reqCarriesScope (og pj : String) : BackendReq → Bool
  | .cloudAdd _ opts => opts.org_id == some og && opts.project_id == some pj
  | .cloudSearch _ opts => opts.org_id == some og && opts.project_id == some pj
  | .cloudDeleteFetch _ _ body => body.org_id == some og && body.project_id == some pj
  | _ => false

/-- Ready cloud-mode server state as produced by a successful cloud
startup. -/
def readyCloudState : ServerState := ⟨true, true, true, false⟩

/-- Ready local-mode server state as produced by a successful local
startup. -/
def readyLocalState : ServerState := ⟨true, false, false, true⟩

end Mem0MCP

namespace Mem0MCP

/-- C1: an add_memory call with truthy content and userId against a ready
server always returns the success envelope with exactly the text "Memory
addition queued successfully", and the outcome is the same whatever the
eventual result of the background backend write is: a failing write is
never surfaced to the caller as an error. -/
theorem add_memory_ack_independent (env : Env) (st : ServerState) (a : RawArgs)
    (o : Oracles) (w w' : Except String Unit)
    (hst : readyWithClient st = true)
    (hc : jsFalsy a.content = false) (hu : jsFalsy a.userId = false) :
    (callTool env st "add_memory" a { o with addWrite := w }).outcome
        = ToolOutcome.success [⟨"text", "Memory addition queued successfully"⟩]
    ∧ (callTool env st "add_memory" a { o with addWrite := w }).outcome
        = (callTool env st "add_memory" a { o with addWrite := w' }).outcome := by
  obtain ⟨r, cm, hcc, hlc⟩ := st
  simp only [readyWithClient] at hst
  cases r <;> cases cm <;> cases hcc <;> cases hlc <;>
    simp_all [callTool, handleAddMemory]

/-- C1 witness: concrete local-mode call whose background write fails,
still acknowledged with the queued-successfully envelope. -/
theorem add_memory_ack_independent_witness :
    (callTool {} readyLocalState "add_memory"
        { content := some "hello", userId := some "u1" }
        { ({} : Oracles) with addWrite := Except.error "disk full" }).outcome
      = ToolOutcome.success [⟨"text", "Memory addition queued successfully"⟩] :=
  (add_memory_ack_independent {} readyLocalState
      { content := some "hello", userId := some "u1" } {}
      (Except.error "disk full") (Except.ok ()) (by decide) (by decide) (by decide)).1

/-- C2: mode selection is deterministic: a truthy MEM0_API_KEY selects
cloud regardless of the local key; otherwise a truthy OPENAI_API_KEY
selects local; with neither, every startup exits with status 1; and any
startup that leaves the process running has the mode matching the
decision and never both clients active. -/
theorem mode_selection_deterministic (env : Env) :
    ((truthy env.MEM0_API_KEY).isSome = true → selectMode env = ModeDecision.cloud)
  ∧ ((truthy env.MEM0_API_KEY).isSome = false →
      (truthy env.OPENAI_API_KEY).isSome = true → selectMode env = ModeDecision.localMode)
  ∧ ((truthy env.MEM0_API_KEY).isSome = false →
      (truthy env.OPENAI_API_KEY).isSome = false →
      ∀ oc b, startServer env oc b = InitResult.exited 1)
  ∧ (∀ oc b st, startServer env oc b = InitResult.running st →
      ((st.isCloudMode = true) ↔ selectMode env = ModeDecision.cloud)
      ∧ (st.hasCloudClient && st.hasLocalClient) = false) := by
  refine ⟨?_, ?_, ?_, ?_⟩
  · intro h; simp [selectMode, h]
  · intro h1 h2; simp [selectMode, h1, h2]
  · intro h1 h2 oc b; simp [startServer, selectMode, h1, h2]
  · intro oc b st h
    rcases hsel : selectMode env with _ | _ | n <;>
      simp only [startServer, hsel] at h
    · cases oc with
      | importRejected => simp at h
      | ctorThrew => cases h; simp [hsel]
      | ok => cases h; simp [hsel]
    · split_ifs at h
      all_goals cases h
      all_goals simp [hsel]
    · simp at h

/-- C2 witness: both keys set gives cloud, only the local key gives
local, neither key exits with status 1. -/
theorem mode_selection_deterministic_witness :
    selectMode { MEM0_API_KEY := some "ck", OPENAI_API_KEY := some "lk" } = ModeDecision.cloud
  ∧ selectMode { OPENAI_API_KEY := some "lk" } = ModeDecision.localMode
  ∧ startServer {} CloudInitOutcome.ok false = InitResult.exited 1 :=
  ⟨(mode_selection_deterministic _).1 (by decide),
   (mode_selection_deterministic _).2.1 (by decide) (by decide),
   (mode_selection_deterministic _).2.2.1 (by decide) (by decide) CloudInitOutcome.ok false⟩

/-- C6: any tool call, whatever the name, arguments and oracle results,
received while isReady is false fails with the initializing
InternalError, and no backend request is issued (the call is rejected,
not queued). -/
theorem callTool_rejects_before_ready (env : Env) (st : ServerState)
    (name : String) (a : RawArgs) (o : Oracles) (h : st.isReady = false) :
    callTool env st name a o
      = ⟨.error .InternalError
          "Memory client is still initializing. Please try again in a moment.", [], []⟩ := by
  simp [callTool, h]

/-- C6 witness: a concrete call against the not-ready state is rejected
with the initializing error and an empty request list. -/
theorem callTool_rejects_before_ready_witness :
    callTool {} ⟨false, true, false, false⟩ "add_memory" {} {}
      = ⟨.error .InternalError
          "Memory client is still initializing. Please try again in a moment.", [], []⟩ :=
  callTool_rejects_before_ready {} ⟨false, true, false, false⟩ "add_memory" {} {} rfl


/-- Environment with only the cloud key set. -/
def envCloudOnly : Env := { MEM0_API_KEY := some "ck" }

/-- C3 counterexample: with cloud mode selected, a throw inside the
MemoryClient construction does not terminate the process: the inner
catch of the import callback only logs it, so startup leaves the server
running, not ready and with no client, contradicting the claim that
every initialization failure of the selected backend exits with a
non-zero status. -/
theorem cloud_ctor_failure_keeps_running :
    selectMode envCloudOnly = ModeDecision.cloud
  ∧ (startServer envCloudOnly CloudInitOutcome.ctorThrew false).isExited = false
  ∧ startServer envCloudOnly CloudInitOutcome.ctorThrew false
      = InitResult.running ⟨false, true, false, false⟩ :=
  ⟨by decide, by decide, by decide⟩

/-- C3 amended: a rejected cloud import and every local initialization
failure exit the process with status 1; a throw during cloud client
construction instead leaves the process running not-ready with no client
of either variant, and in that stuck state every tool call is rejected
with the initializing InternalError and no backend request is ever
issued — the server never falls back to the other variant and never
serves a call without a backend. -/
theorem init_failure_behaviour (env : Env) (oc : CloudInitOutcome) (b : Bool) :
    (selectMode env = ModeDecision.cloud →
        startServer env CloudInitOutcome.importRejected b = InitResult.exited 1)
  ∧ (selectMode env = ModeDecision.localMode →
        startServer env oc true = InitResult.exited 1)
  ∧ (selectMode env = ModeDecision.cloud →
        startServer env CloudInitOutcome.ctorThrew b
          = InitResult.running ⟨false, true, false, false⟩
        ∧ ∀ name a o, callTool env ⟨false, true, false, false⟩ name a o
            = ⟨.error .InternalError
                "Memory client is still initializing. Please try again in a moment.",
              [], []⟩) := by
  refine ⟨fun h => ?_, fun h => ?_, fun h => ⟨?_, fun name a o => ?_⟩⟩
  · simp [startServer, h]
  · simp [startServer, h]
  · simp [startServer, h]
  · simp [callTool]

/-- C3 amended witness: concrete import rejection and local constructor
throw both exit with status 1. -/
theorem init_failure_behaviour_witness :
    startServer envCloudOnly CloudInitOutcome.importRejected false = InitResult.exited 1
  ∧ startServer { OPENAI_API_KEY := some "lk" } CloudInitOutcome.ok true = InitResult.exited 1 :=
  ⟨(init_failure_behaviour envCloudOnly CloudInitOutcome.ok false).1 (by decide),
   (init_failure_behaviour { OPENAI_API_KEY := some "lk" } CloudInitOutcome.ok false).2.1
      (by decide)⟩

/-- C4: a valid search_memory call against a ready server, in either
mode, issues exactly one backend search request; its threshold option is
0.3 when the threshold argument is absent and exactly the supplied value
when one is given. -/
theorem search_threshold_defaulted (env : Env) (st : ServerState) (a : RawArgs)
    (o : Oracles) (hst : readyWithClient st = true)
    (hq : jsFalsy a.query = false) (hu : jsFalsy a.userId = false) :
    (a.threshold = none →
      ((callTool env st "search_memory" a o).reqs.map searchReqThreshold)
        = [some 0.3])
  ∧ (∀ t, a.threshold = some t →
      ((callTool env st "search_memory" a o).reqs.map searchReqThreshold)
        = [some t]) := by
  obtain ⟨rdy, cm, hcc, hlc⟩ := st
  simp only [readyWithClient] at hst
  refine ⟨fun hth => ?_, fun t hth => ?_⟩ <;>
    cases hso : o.searchResult <;>
      cases rdy <;> cases cm <;> cases hcc <;> cases hlc <;>
        simp_all [callTool, handleSearchMemory, searchReqThreshold]

/-- C4 witness: omitted threshold becomes 0.3 (local mode); a supplied
threshold of 0.5 is passed through unchanged (cloud mode). -/
theorem search_threshold_defaulted_witness :
    ((callTool {} readyLocalState "search_memory"
        { query := some "q", userId := some "u1" } {}).reqs.map searchReqThreshold)
      = [some 0.3]
  ∧ ((callTool {} readyCloudState "search_memory"
        { query := some "q", userId := some "u1", threshold := some 0.5 }
        {}).reqs.map searchReqThreshold)
      = [some 0.5] :=
  ⟨(search_threshold_defaulted {} readyLocalState
      { query := some "q", userId := some "u1" } {}
      (by decide) (by decide) (by decide)).1 rfl,
   (search_threshold_defaulted {} readyCloudState
      { query := some "q", userId := some "u1", threshold := some 0.5 } {}
      (by decide) (by decide) (by decide)).2 0.5 rfl⟩

/-- C5: for a valid delete_memory call against a ready server whose
primary delete throws, the documented fallback is attempted exactly once
(the raw fetch DELETE in cloud mode; the vector-store delete in local
mode when the store exposes one), and when the fallback also fails the
caller receives an InternalError carrying a message and no success
envelope: the fetch rejection message in cloud mode, the vector-store
failure message (or the unsupported-deletion message) in local mode. -/
theorem delete_fallback_once_and_error (env : Env) (st : ServerState)
    (a : RawArgs) (o : Oracles) (e : String)
    (hst : readyWithClient st = true)
    (hm : jsFalsy a.memoryId = false) (hu : jsFalsy a.userId = false)
    (hp : o.deletePrimary = Except.error e) :
    (st.isCloudMode = true →
        ((callTool env st "delete_memory" a o).reqs.countP isFallbackDelete) = 1
      ∧ ∀ e2, o.cloudFetch = Except.error e2 →
          (callTool env st "delete_memory" a o).outcome
            = ToolOutcome.error ErrCode.InternalError
                ("Error deleting memory: " ++ e2))
  ∧ (st.isCloudMode = false → o.vsDeleteAvailable = true →
        ((callTool env st "delete_memory" a o).reqs.countP isFallbackDelete) = 1
      ∧ ∀ e2, o.vsDelete = Except.error e2 →
          (callTool env st "delete_memory" a o).outcome
            = ToolOutcome.error ErrCode.InternalError
                ("Error deleting memory: "
                  ++ (if e2.isEmpty then "Local client does not support memory deletion"
                      else e2)))
  ∧ (st.isCloudMode = false → o.vsDeleteAvailable = false →
        (callTool env st "delete_memory" a o).outcome
          = ToolOutcome.error ErrCode.InternalError
              "Error deleting memory: Local client does not support memory deletion") := by
  obtain ⟨rdy, cm, hcc, hlc⟩ := st
  simp only [readyWithClient] at hst
  cases rdy <;> cases cm <;> cases hcc <;> cases hlc <;>
    cases hcf : o.cloudFetch <;> cases hva : o.vsDeleteAvailable <;>
      cases hvd : o.vsDelete <;>
        simp_all [callTool, handleDeleteMemory, isFallbackDelete]

/-- C5 witness: cloud mode with a failing primary delete and a rejected
fallback fetch: exactly one fallback attempt and an InternalError
carrying the fetch rejection message. -/
theorem delete_fallback_once_and_error_witness :
    ((callTool {} readyCloudState "delete_memory"
        { memoryId := some "m1", userId := some "u1" }
        { ({} : Oracles) with
            deletePrimary := Except.error "nope"
            cloudFetch := Except.error "net down" }).reqs.countP isFallbackDelete) = 1
  ∧ (callTool {} readyCloudState "delete_memory"
        { memoryId := some "m1", userId := some "u1" }
        { ({} : Oracles) with
            deletePrimary := Except.error "nope"
            cloudFetch := Except.error "net down" }).outcome
      = ToolOutcome.error ErrCode.InternalError
          ("Error deleting memory: " ++ "net down") := by
  have h := delete_fallback_once_and_error {} readyCloudState
      { memoryId := some "m1", userId := some "u1" }
      { ({} : Oracles) with
          deletePrimary := Except.error "nope"
          cloudFetch := Except.error "net down" }
      "nope" (by decide) (by decide) (by decide) rfl
  exact ⟨(h.1 rfl).1, (h.1 rfl).2 "net down" rfl⟩


/-- C7: with the server ready, a call to any of the three tools missing
a required field (or supplying it empty) fails with InvalidParams and
issues no backend request, and a call naming a tool outside the fixed
set fails with MethodNotFound and issues no backend request. -/
theorem validation_and_dispatch_errors (env : Env) (st : ServerState)
    (a : RawArgs) (o : Oracles) (hready : st.isReady = true) :
    ((jsFalsy a.content = true ∨ jsFalsy a.userId = true) →
        (callTool env st "add_memory" a o).outcome.errCode = some ErrCode.InvalidParams
      ∧ (callTool env st "add_memory" a o).reqs = [])
  ∧ ((jsFalsy a.query = true ∨ jsFalsy a.userId = true) →
        (callTool env st "search_memory" a o).outcome.errCode = some ErrCode.InvalidParams
      ∧ (callTool env st "search_memory" a o).reqs = [])
  ∧ ((jsFalsy a.memoryId = true ∨ jsFalsy a.userId = true) →
        (callTool env st "delete_memory" a o).outcome.errCode = some ErrCode.InvalidParams
      ∧ (callTool env st "delete_memory" a o).reqs = [])
  ∧ (∀ name, name ≠ "add_memory" → name ≠ "search_memory" → name ≠ "delete_memory" →
        callTool env st name a o
          = ⟨.error .MethodNotFound ("Unknown tool: " ++ name), [], []⟩) := by
  refine ⟨fun h => ?_, fun h => ?_, fun h => ?_, fun name h1 h2 h3 => ?_⟩
  · rcases h with h | h
    · simp [callTool, handleAddMemory, hready, h, ToolOutcome.errCode]
    · cases hc : jsFalsy a.content <;>
        simp [callTool, handleAddMemory, hready, h, hc, ToolOutcome.errCode]
  · rcases h with h | h
    · simp [callTool, handleSearchMemory, hready, h, ToolOutcome.errCode]
    · cases hc : jsFalsy a.query <;>
        simp [callTool, handleSearchMemory, hready, h, hc, ToolOutcome.errCode]
  · rcases h with h | h
    · simp [callTool, handleDeleteMemory, hready, h, ToolOutcome.errCode]
    · cases hc : jsFalsy a.memoryId <;>
        simp [callTool, handleDeleteMemory, hready, h, hc, ToolOutcome.errCode]
  · simp [callTool, hready, h1, h2, h3]

/-- C7 witness: a search_memory call without userId yields InvalidParams
with no backend request, and an unknown tool name yields MethodNotFound. -/
theorem validation_and_dispatch_errors_witness :
    (callTool {} readyLocalState "search_memory"
        { query := some "q" } {}).outcome.errCode = some ErrCode.InvalidParams
  ∧ (callTool {} readyLocalState "search_memory" { query := some "q" } {}).reqs = []
  ∧ callTool {} readyLocalState "list_tools" {} {}
      = ⟨.error .MethodNotFound ("Unknown tool: " ++ "list_tools"), [], []⟩ := by
  have h := validation_and_dispatch_errors {} readyLocalState
      { query := some "q" } {} rfl
  have h0 := validation_and_dispatch_errors {} readyLocalState {} {} rfl
  exact ⟨(h.2.1 (Or.inr rfl)).1, (h.2.1 (Or.inr rfl)).2,
    h0.2.2.2 "list_tools" (by decide) (by decide) (by decide)⟩

/-- Environment with the cloud key and org / project scoping configured. -/
def envScoped : Env :=
  { MEM0_API_KEY := some "ck"
    ORG_ID := some "org1"
    PROJECT_ID := some "proj1" }

/-- C8 counterexample: with ORG_ID and PROJECT_ID configured, a cloud
delete_memory call whose primary delete succeeds issues exactly one
backend request, cloudClient.deleteMemory(memoryId), and that request
carries neither org_id nor project_id — the scoping identifiers are not
attached to every cloud backend request. -/
theorem primary_delete_carries_no_scope :
    (callTool envScoped readyCloudState "delete_memory"
        { memoryId := some "m1", userId := some "u1" } {}).reqs
      = [BackendReq.cloudDeleteMemory (some "m1")]
  ∧ reqCarriesScope "org1" "proj1" (BackendReq.cloudDeleteMemory (some "m1")) = false :=
  ⟨by decide, by decide⟩

/-- C8 amended: when org and project scoping are configured in the
environment, every cloud add and search backend request and the delete
fallback fetch body carry org_id and project_id, for every possible
argument bag — so no per-call argument can set or override them; the
primary cloud delete request, however, consists of the memory id alone
and carries no scoping identifiers. -/
theorem cloud_scoping_from_env (env : Env) (a : RawArgs) (o : Oracles)
    (og pj e : String)
    (hog : effOrgId env = some og) (hpj : effProjectId env = some pj) :
    (jsFalsy a.content = false → jsFalsy a.userId = false →
        ∀ r ∈ (callTool env readyCloudState "add_memory" a o).reqs,
          reqCarriesScope og pj r = true)
  ∧ (jsFalsy a.query = false → jsFalsy a.userId = false →
        ∀ r ∈ (callTool env readyCloudState "search_memory" a o).reqs,
          reqCarriesScope og pj r = true)
  ∧ (jsFalsy a.memoryId = false → jsFalsy a.userId = false →
      o.deletePrimary = Except.error e →
        ∀ r ∈ (callTool env readyCloudState "delete_memory" a o).reqs,
          isFallbackDelete r = true → reqCarriesScope og pj r = true) := by
  refine ⟨fun h1 h2 r hr => ?_, fun h1 h2 r hr => ?_, fun h1 h2 hp r hr hf => ?_⟩
  · simp only [callTool, handleAddMemory, readyCloudState] at hr
    simp [h1, h2] at hr
    subst hr
    simp [reqCarriesScope, hog, hpj]
  · rcases hso : o.searchResult with s | s <;>
      simp only [callTool, handleSearchMemory, readyCloudState] at hr <;>
      simp [h1, h2, hso] at hr <;>
      subst hr <;>
      simp [reqCarriesScope, hog, hpj]
  · rcases hcf : o.cloudFetch with resp | s <;>
      simp only [callTool, handleDeleteMemory, readyCloudState] at hr <;>
      simp [h1, h2, hp, hcf] at hr <;>
      rcases hr with hr | hr <;>
      subst hr <;>
      simp_all [reqCarriesScope, isFallbackDelete, hog, hpj]

/-- C8 amended witness: with scoping configured, the cloud add request
built for a concrete call carries org_id org1 and project_id proj1. -/
theorem cloud_scoping_from_env_witness :
    reqCarriesScope "org1" "proj1"
        (BackendReq.cloudAdd [⟨"user", some "hello"⟩]
          { user_id := some "u1"
            version := "v2"
            org_id := some "org1"
            project_id := some "proj1"
            run_id := none
            agent_id := none
            metadata := none }) = true :=
  (cloud_scoping_from_env envScoped { content := some "hello", userId := some "u1" } {}
      "org1" "proj1" "e" (by decide) (by decide)).1 (by decide) (by decide) _ (by decide)

/-- C9: in cloud mode, when the primary deleteMemory call throws and the
fallback fetch resolves, the handler returns the deleted-successfully
envelope whatever the HTTP status of the resolved response is: the
response is never inspected, so a resolved 404 or 500 still produces the
success response. -/
theorem delete_fallback_ignores_status (env : Env) (a : RawArgs) (o : Oracles)
    (e : String) (resp : FetchResp)
    (hm : jsFalsy a.memoryId = false) (hu : jsFalsy a.userId = false)
    (hp : o.deletePrimary = Except.error e) (hf : o.cloudFetch = Except.ok resp) :
    (callTool env readyCloudState "delete_memory" a o).outcome
      = ToolOutcome.success
          [⟨"text", "Memory " ++ a.memoryId.getD "" ++ " deleted successfully"⟩] := by
  simp [callTool, handleDeleteMemory, readyCloudState, hm, hu, hp, hf]

/-- C9 witness: a fallback fetch resolving with status 404 still yields
the deleted-successfully envelope. -/
theorem delete_fallback_ignores_status_witness :
    (callTool {} readyCloudState "delete_memory"
        { memoryId := some "m1", userId := some "u1" }
        { ({} : Oracles) with
            deletePrimary := Except.error "nope"
            cloudFetch := Except.ok ⟨404⟩ }).outcome
      = ToolOutcome.success
          [⟨"text", "Memory " ++ (some "m1").getD "" ++ " deleted successfully"⟩] :=
  delete_fallback_ignores_status {} { memoryId := some "m1", userId := some "u1" }
      { ({} : Oracles) with
          deletePrimary := Except.error "nope"
          cloudFetch := Except.ok ⟨404⟩ }
      "nope" ⟨404⟩ (by decide) (by decide) rfl rfl

/-- C10: in local mode the agentId argument is dropped: two calls to
add_memory or search_memory differing only in agentId produce identical
results, backend requests included, and the options record handed to the
local backend contains exactly userId, sessionId and metadata for add,
and userId, sessionId, filters and the threshold for search, taken from
the call arguments. -/
theorem local_mode_drops_agentId (env : Env) (st : ServerState) (a : RawArgs)
    (o : Oracles) (x y : Option String) (hcm : st.isCloudMode = false) :
    callTool env st "add_memory" { a with agentId := x } o
        = callTool env st "add_memory" { a with agentId := y } o
  ∧ callTool env st "search_memory" { a with agentId := x } o
        = callTool env st "search_memory" { a with agentId := y } o
  ∧ (jsFalsy a.content = false → jsFalsy a.userId = false →
      st.isReady = true → st.hasLocalClient = true →
        (callTool env st "add_memory" a o).reqs
          = [BackendReq.localAdd [⟨"user", a.content⟩]
              ⟨a.userId, a.sessionId, a.metadata⟩])
  ∧ (jsFalsy a.query = false → jsFalsy a.userId = false →
      st.isReady = true → st.hasLocalClient = true →
        (callTool env st "search_memory" a o).reqs
          = [BackendReq.localSearch a.query
              ⟨a.userId, a.sessionId, a.filters,
                match a.threshold with | some t => t | none => 0.3⟩]) := by
  obtain ⟨rdy, cm, hcc, hlc⟩ := st
  simp only at hcm
  subst hcm
  refine ⟨?_, ?_, fun h1 h2 h3 h4 => ?_, fun h1 h2 h3 h4 => ?_⟩ <;>
    cases rdy <;> cases hcc <;> cases hlc <;>
      cases hso : o.searchResult <;>
        simp_all [callTool, handleAddMemory, handleSearchMemory]

/-- C10 witness: two concrete local-mode add_memory calls differing only
in agentId produce identical results. -/
theorem local_mode_drops_agentId_witness :
    callTool {} readyLocalState "add_memory"
        { content := some "hello", userId := some "u1", agentId := some "agent-a" } {}
      = callTool {} readyLocalState "add_memory"
        { content := some "hello", userId := some "u1", agentId := some "agent-b" } {} :=
  (local_mode_drops_agentId {} readyLocalState
      { content := some "hello", userId := some "u1" } {}
      (some "agent-a") (some "agent-b") rfl).1

end Mem0MCP
